import Mathlib

/-!
Verification development for the libdc dive-computer parser library.

The definitions below are shallow embeddings of the C source files under
src/src.  Byte blobs are lists of natural numbers (each byte in 0..255),
machine unsigned integers are naturals with explicit reductions modulo
2^32 where the C code can wrap, and C doubles are modelled as rationals.
Status codes are a small inductive mirroring dc_status_t, and the sample
stream produced through the callback of samples_foreach is modelled as a
list of tagged sample values in emission order.
-/

/-- Status codes, mirroring the subset of dc_status_t reachable from the
parser code embedded here. -/
inductive DcStatus
  | success
  | dataformat
  | unsupported
  | invalidargs
  deriving DecidableEq, Repr

/-- Modelled from the spec: array.c is not under src.  The spec (section 2)
describes little/big-endian integer decoders at arbitrary offsets.  A byte
read out of bounds yields 0; all guarded source reads are in bounds. -/
def byteAt (data : List Nat) (i : Nat) : Nat := data.getD i 0

/-- Modelled from the spec: 16-bit little-endian decoder at an offset. -/
def array_uint16_le (data : List Nat) (o : Nat) : Nat :=
  byteAt data o + 256 * byteAt data (o + 1)

/-- Modelled from the spec: 16-bit big-endian decoder at an offset. -/
def array_uint16_be (data : List Nat) (o : Nat) : Nat :=
  256 * byteAt data o + byteAt data (o + 1)

/-- Modelled from the spec: 32-bit little-endian decoder at an offset. -/
def array_uint32_le (data : List Nat) (o : Nat) : Nat :=
  byteAt data o + 256 * byteAt data (o + 1) + 65536 * byteAt data (o + 2) +
    16777216 * byteAt data (o + 3)

/-- Modelled from the spec: 32-bit big-endian decoder at an offset. -/
def array_uint32_be (data : List Nat) (o : Nat) : Nat :=
  16777216 * byteAt data o + 65536 * byteAt data (o + 1) +
    256 * byteAt data (o + 2) + byteAt data (o + 3)

/-- Modelled from the spec: BCD to decimal conversion (two decimal digits
per byte). -/
def bcd2dec (v : Nat) : Nat :=
  ((v >>> 4) &&& 0x0F) * 10 + (v &&& 0x0F)

/-- Modelled from the spec: equality scan, true when the size bytes
starting at the offset all equal the given value. -/
def array_isequal (data : List Nat) (o n v : Nat) : Bool :=
  (List.range n).all fun i => byteAt data (o + i) == v

/-- Subtraction of 32-bit unsigned integers with wrap-around, the result
of the C expression a - b on unsigned int operands. -/
def usub32 (a b : Nat) : Nat :=
  (a % 4294967296 + 4294967296 - b % 4294967296) % 4294967296

/-- Interpretation of a 16-bit value as a signed short, the C cast
(signed short) x. -/
def int16 (v : Nat) : Int :=
  if v % 65536 < 32768 then (v % 65536 : Int) else (v % 65536 : Int) - 65536

/-- Interpretation of an 8-bit value as a signed char, the C cast
(signed char) x. -/
def int8 (v : Nat) : Int :=
  if v % 256 < 128 then (v % 256 : Int) else (v % 256 : Int) - 256

/-- Modelled from the spec: units.h is not under src.  Feet to meters
(concrete scenario 4 of the spec uses the factor 0.3048). -/
def FEET : ℚ := 3048 / 10000

/-- Modelled from the spec: standard atmosphere in pascal (spec: default
approximately 1 atm in Pa). -/
def ATM : ℚ := 101325

/-- Modelled from the spec: standard gravity (spec: g approximately 9.81). -/
def GRAVITY : ℚ := 980665 / 100000

/-- Modelled from the spec: feet of sea water unit, ATM / 33. -/
def FSW : ℚ := ATM / 33

/-- Modelled from the spec: bar in pascal. -/
def BAR : ℚ := 100000

/-- Modelled from the spec: pounds per square inch in pascal. -/
def PSI : ℚ := 6894757293168361 / 1000000000000

/-- Gas mix fractions as returned through DC_FIELD_GASMIX. -/
structure Gasmix where
  oxygen : ℚ
  helium : ℚ
  nitrogen : ℚ
  deriving DecidableEq, Repr

/-- Values returned through the typed get_field interface. -/
inductive FieldValue
  | uint (v : Nat)
  | real (v : ℚ)
  | mix (g : Gasmix)
  | divemode (m : Nat)
  deriving DecidableEq, Repr

/-- The field kinds queried through get_field in the embedded parsers. -/
inductive DcFieldType
  | divetime
  | maxdepth
  | gasmix_count
  | gasmix
  | temperature_minimum
  | atmospheric
  | divemode
  | other
  deriving DecidableEq, Repr

/-- Broken-down datetime as filled in by get_datetime. -/
structure DcDatetime where
  year : Nat
  month : Nat
  day : Nat
  hour : Nat
  minute : Nat
  second : Nat
  deriving DecidableEq, Repr

/-- Modelled from the spec: sample event type constants of parser.h
(not under src); only distinctness matters to the embedded code. -/
def SAMPLE_EVENT_ASCENT : Nat := 5

/-- Modelled from the spec: gas change event delivering o2 only. -/
def SAMPLE_EVENT_GASCHANGE : Nat := 9

/-- Modelled from the spec: gas change event delivering o2 and he. -/
def SAMPLE_EVENT_GASCHANGE2 : Nat := 17

/-- Modelled from the spec: deco type constants of parser.h. -/
def DC_DECO_NDL : Nat := 0

/-- Modelled from the spec: deco stop type constant. -/
def DC_DECO_DECOSTOP : Nat := 2

/-- Modelled from the spec: vendor sample tag of the Oceanic Atom2. -/
def SAMPLE_VENDOR_OCEANIC_ATOM2 : Nat := 16

/-- One sample value delivered to the samples_foreach callback, in
emission order.  Payloads carry exactly the fields the embedded code
stores into dc_sample_value_t before invoking the callback. -/
inductive DcSample
  | time (t : Nat)
  | depth (d : ℚ)
  | temperature (t : ℚ)
  | ppo2 (p : ℚ)
  | cns (c : ℚ)
  | pressure (tank : Nat) (v : ℚ)
  | deco (dtype : Nat) (ddepth : ℚ) (t : Nat)
  | event (etype : Nat) (value : Nat)
  | vendor (vtype : Nat) (size : Nat)
  | rbt (v : Nat)
  | heartbeat (v : Nat)
  | bearing (v : Nat)
  deriving DecidableEq, Repr

/-! ## Cressi Leonardo parser (src/src/cressi_leonardo_parser.c) -/

/-- Header size constant SZ_HEADER of the Cressi Leonardo parser. -/
def cressi_SZ_HEADER : Nat := 82

/-- Embedding of cressi_leonardo_parser_get_datetime: requires the
82-byte header and decodes the plain binary date at offsets 8..12. -/
def cressi_leonardo_parser_get_datetime (data : List Nat) :
    Except DcStatus DcDatetime :=
  if data.length < cressi_SZ_HEADER then .error .dataformat
  else .ok
    { year := byteAt data 8 + 2000
      month := byteAt data 9
      day := byteAt data 10
      hour := byteAt data 11
      minute := byteAt data 12
      second := 0 }

/-- Embedding of cressi_leonardo_parser_get_field: header fields decoded
from fixed offsets of the 82-byte header. -/
def cressi_leonardo_parser_get_field (data : List Nat)
    (ftype : DcFieldType) : Except DcStatus FieldValue :=
  if data.length < cressi_SZ_HEADER then .error .dataformat
  else
    match ftype with
    | .divetime => .ok (.uint (array_uint16_le data 0x06 * 20))
    | .maxdepth => .ok (.real ((array_uint16_le data 0x20 : ℚ) / 10))
    | .gasmix_count => .ok (.uint 1)
    | .gasmix =>
        let oxygen : ℚ := (byteAt data 0x19 : ℚ) / 100
        .ok (.mix ⟨oxygen, 0, 1 - oxygen - 0⟩)
    | .temperature_minimum => .ok (.real (byteAt data 0x22 : ℚ))
    | _ => .error .unsupported

/-- Sample loop of cressi_leonardo_parser_samples_foreach, walking 2-byte
samples from the end of the header.  The fuel argument only bounds the
recursion depth; the wrapper passes enough fuel for the loop to reach its
source exit condition. -/
def cressi_leonardo_samples_loop (data : List Nat) (size offset time : Nat) :
    Nat → List DcSample
  | 0 => []
  | fuel + 1 =>
    if offset + 2 ≤ size then
      let value := array_uint16_le data offset
      let depth := value &&& 0x07FF
      let ascent := (value &&& 0xC000) >>> 14
      let time' := time + 20
      ([DcSample.time time', DcSample.depth ((depth : ℚ) / 10)] ++
        (if ascent ≠ 0 then [DcSample.event SAMPLE_EVENT_ASCENT ascent] else [])) ++
        cressi_leonardo_samples_loop data size (offset + 2) time' fuel
    else []

/-- Embedding of cressi_leonardo_parser_samples_foreach: no size guard,
the loop simply emits nothing when fewer than 84 bytes are present and
the function always returns success. -/
def cressi_leonardo_parser_samples_foreach (data : List Nat) :
    DcStatus × List DcSample :=
  (.success,
    cressi_leonardo_samples_loop data data.length cressi_SZ_HEADER 0
      (data.length + 1))

/-! ## DiveSystem iDive parser (src/src/divesystem_idive_parser.c) -/

/-- Header size constant SZ_HEADER of the iDive parser. -/
def idive_SZ_HEADER : Nat := 0x32

/-- Sample size constant SZ_SAMPLE of the iDive parser. -/
def idive_SZ_SAMPLE : Nat := 0x2A

/-- Maximum number of cached gas mixes, NGASMIXES. -/
def idive_NGASMIXES : Nat := 8

/-- Epoch constant of the iDive parser, 2008-01-01 00:00:00 UTC. -/
def idive_EPOCH : Nat := 1199145600

/-- Lazily populated field cache of the iDive parser.  The oxygen and
helium arrays together with their count are represented as the list of
distinct pairs in first-seen order. -/
structure IdiveCache where
  cached : Bool
  divetime : Nat
  maxdepth : Nat
  mixes : List (Nat × Nat)
  deriving DecidableEq, Repr

/-- The absolute timestamp stored in the sample record at the given
offset (bytes offset+2 .. offset+5, little endian). -/
def idive_ts (data : List Nat) (offset : Nat) : Nat :=
  array_uint32_le data (offset + 2)

/-- Sample loop of divesystem_idive_parser_samples_foreach.  Walks
0x2A-byte records, rejecting any timestamp not strictly above the
running time and any overflow of the gas mix table.  On success returns
the emitted samples together with the final time, maximum depth and gas
mix list that the source caches.  Fuel exhaustion returns the same
data-format error as the in-loop failures and is unreachable from the
wrapper. -/
def divesystem_idive_samples_loop (data : List Nat)
    (size offset time maxdepth : Nat) (mixes : List (Nat × Nat))
    (o2p hep : Nat) :
    Nat → Except DcStatus (List DcSample × Nat × Nat × List (Nat × Nat))
  | 0 => .error .dataformat
  | fuel' + 1 =>
    if offset + idive_SZ_SAMPLE ≤ size then
      let timestamp := idive_ts data offset
      if timestamp ≤ time then .error .dataformat
      else
        let depth := array_uint16_le data (offset + 6)
        let maxdepth' := if maxdepth < depth then depth else maxdepth
        let temperature := int16 (array_uint16_le data (offset + 8))
        let o2 := byteAt data (offset + 10)
        let he := byteAt data (offset + 11)
        let changed := o2 ≠ o2p ∨ he ≠ hep
        if changed ∧ (o2, he) ∉ mixes ∧ idive_NGASMIXES ≤ mixes.length then
          .error .dataformat
        else
          let mixes' := if changed ∧ (o2, he) ∉ mixes then
            mixes ++ [(o2, he)] else mixes
          let o2p' := if changed then o2 else o2p
          let hep' := if changed then he else hep
          let deco := array_uint16_le data (offset + 21)
          let tts := array_uint16_le data (offset + 23)
          let cns := array_uint16_le data (offset + 29)
          let here : List DcSample :=
            [.time timestamp, .depth ((depth : ℚ) / 10),
              .temperature ((temperature : ℚ) / 10)] ++
            (if changed then
              [.event SAMPLE_EVENT_GASCHANGE2 (o2 ||| (he <<< 16))] else []) ++
            (if tts ≠ 0xFFFF then
              [if deco ≠ 0 then .deco DC_DECO_DECOSTOP ((deco : ℚ) / 10) tts
                else .deco DC_DECO_NDL 0 tts] else []) ++
            [.cns ((cns : ℚ) / 100)]
          match divesystem_idive_samples_loop data size
              (offset + idive_SZ_SAMPLE) timestamp maxdepth' mixes' o2p' hep'
              fuel' with
          | .error e => .error e
          | .ok (rest, t, md, ms) => .ok (here ++ rest, t, md, ms)
    else .ok ([], time, maxdepth, mixes)

/-- Embedding of divesystem_idive_parser_samples_foreach: runs the
sample loop from the header end with reset running state; on success the
field cache is overwritten and marked populated, on failure the cache
argument is returned untouched. -/
def divesystem_idive_parser_samples_foreach (data : List Nat)
    (cache : IdiveCache) : DcStatus × List DcSample × IdiveCache :=
  match divesystem_idive_samples_loop data data.length idive_SZ_HEADER 0 0 []
      4294967295 4294967295 (data.length + 1) with
  | .error e => (e, [], cache)
  | .ok (samples, time, maxdepth, mixes) =>
      (.success, samples, ⟨true, time, maxdepth, mixes⟩)

/-- Embedding of divesystem_idive_parser_get_datetime up to the epoch
ticks value.  The broken-down local time conversion dc_datetime_localtime
is environment code outside src and is not modelled. -/
def divesystem_idive_parser_get_datetime_ticks (data : List Nat) :
    Except DcStatus Nat :=
  if data.length < idive_SZ_HEADER then .error .dataformat
  else .ok (array_uint32_le data 7 + idive_EPOCH)

/-- Embedding of divesystem_idive_parser_get_field: guards the header
size, populates the cache through samples_foreach when needed and decodes
the requested field from the cache or the header. -/
def divesystem_idive_parser_get_field (data : List Nat) (cache : IdiveCache)
    (ftype : DcFieldType) (flags : Nat) :
    Except DcStatus (FieldValue × IdiveCache) :=
  if data.length < idive_SZ_HEADER then .error .dataformat
  else
    let populate : Except DcStatus IdiveCache :=
      if cache.cached then .ok cache
      else
        match divesystem_idive_parser_samples_foreach data cache with
        | (.success, _, c) => .ok c
        | (e, _, _) => .error e
    match populate with
    | .error e => .error e
    | .ok c =>
      match ftype with
      | .divetime => .ok (.uint c.divetime, c)
      | .maxdepth => .ok (.real ((c.maxdepth : ℚ) / 10), c)
      | .gasmix_count => .ok (.uint c.mixes.length, c)
      | .gasmix =>
          let o2 := (c.mixes.getD flags (0, 0)).1
          let he := (c.mixes.getD flags (0, 0)).2
          .ok (.mix ⟨(o2 : ℚ) / 100, (he : ℚ) / 100,
            1 - (o2 : ℚ) / 100 - (he : ℚ) / 100⟩, c)
      | .atmospheric => .ok (.real ((array_uint16_le data 11 : ℚ) / 1000), c)
      | _ => .error .unsupported

/-! ## Shearwater Predator / Petrel parser
(src/src/shearwater_predator_parser.c) -/

/-- Block size constant SZ_BLOCK. -/
def shearwater_SZ_BLOCK : Nat := 0x80

/-- Predator sample size SZ_SAMPLE_PREDATOR. -/
def shearwater_SZ_SAMPLE_PREDATOR : Nat := 0x10

/-- Petrel sample size SZ_SAMPLE_PETREL. -/
def shearwater_SZ_SAMPLE_PETREL : Nat := 0x20

/-- Metric unit system selector. -/
def shearwater_METRIC : Nat := 0

/-- Imperial unit system selector. -/
def shearwater_IMPERIAL : Nat := 1

/-- Sample loop of shearwater_predator_parser_samples_foreach: walks
fixed-size samples between the opening block and the footer, skipping
all-zero samples, and emits time, depth, temperature, PPO2, petrel CNS,
gas changes and the deco or NDL state of every sample. -/
def shearwater_samples_loop (data : List Nat) (footer : Nat) (petrel : Bool)
    (samplesize units o2p hep time offset : Nat) : Nat → List DcSample
  | 0 => []
  | fuel + 1 =>
    if offset < footer then
      if array_isequal data offset samplesize 0x00 then
        shearwater_samples_loop data footer petrel samplesize units o2p hep
          time (offset + samplesize) fuel
      else
        let time' := time + 10
        let depth := array_uint16_be data offset
        let temperature := byteAt data (offset + 13)
        let o2 := byteAt data (offset + 7)
        let he := byteAt data (offset + 8)
        let decostop := array_uint16_be data (offset + 2)
        ([DcSample.time time',
          DcSample.depth (if units = shearwater_IMPERIAL then
            (depth : ℚ) * FEET / 10 else (depth : ℚ) / 10),
          DcSample.temperature (if units = shearwater_IMPERIAL then
            ((temperature : ℚ) - 32) * (5 / 9) else (temperature : ℚ)),
          DcSample.ppo2 ((byteAt data (offset + 6) : ℚ) / 100)] ++
          (if petrel then
            [DcSample.cns ((byteAt data (offset + 22) : ℚ) / 100)] else []) ++
          (if o2 ≠ o2p ∨ he ≠ hep then
            [DcSample.event SAMPLE_EVENT_GASCHANGE2 (o2 ||| (he <<< 16))]
          else []) ++
          [if decostop ≠ 0 then
            DcSample.deco DC_DECO_DECOSTOP
              (if units = shearwater_IMPERIAL then (decostop : ℚ) * FEET
                else (decostop : ℚ))
              (byteAt data (offset + 9) * 60)
          else DcSample.deco DC_DECO_NDL 0 (byteAt data (offset + 9) * 60)]) ++
          shearwater_samples_loop data footer petrel samplesize units
            (if o2 ≠ o2p ∨ he ≠ hep then o2 else o2p)
            (if o2 ≠ o2p ∨ he ≠ hep then he else hep)
            time' (offset + samplesize) fuel
    else []

/-- Embedding of shearwater_predator_parser_samples_foreach: locates the
footer (three blocks for the Petrel flavor or when the 0xFFFD sentinel is
present, two otherwise) and runs the sample loop from the end of the
first block. -/
def shearwater_predator_parser_samples_foreach (data : List Nat)
    (petrel : Bool) : DcStatus × List DcSample :=
  let size := data.length
  if size < 2 * shearwater_SZ_BLOCK then (.dataformat, [])
  else
    let footerA := size - shearwater_SZ_BLOCK
    let sentinel := petrel = true ∨ array_uint16_be data footerA = 0xFFFD
    if sentinel ∧ size < 3 * shearwater_SZ_BLOCK then (.dataformat, [])
    else
      let footer := if sentinel then footerA - shearwater_SZ_BLOCK else footerA
      let samplesize := if petrel then shearwater_SZ_SAMPLE_PETREL
        else shearwater_SZ_SAMPLE_PREDATOR
      let units := byteAt data 8
      (.success, shearwater_samples_loop data footer petrel samplesize units
        0 0 0 shearwater_SZ_BLOCK (size + 1))

/-! ## Clock skew conversions of the parsers constructed with a
(devtime, systime) pair (src/src/uwatec_smart_parser.c,
src/src/uwatec_memomouse_parser.c, src/src/reefnet_sensuspro_parser.c,
src/src/reefnet_sensusultra_parser.c).  Each function returns the
absolute epoch-seconds value that the source computes and then hands to
the broken-down time conversion; the conversion itself
(dc_datetime_localtime or dc_datetime_gmtime) is environment code
outside src and is not modelled. -/

/-- Header size selected by uwatec_smart_parser_create for each
supported model; none for models the constructor rejects. -/
def uwatec_smart_headersize (model : Nat) : Option Nat :=
  if model = 0x10 then some 92
  else if model = 0x11 ∨ model = 0x19 ∨ model = 0x15 ∨ model = 0x20 ∨
    model = 0x24 then some 152
  else if model = 0x12 then some 108
  else if model = 0x13 then some 116
  else if model = 0x14 then some 100
  else if model = 0x18 ∨ model = 0x1C then some 132
  else none

/-- The epoch ticks computed by uwatec_smart_parser_get_datetime before
the optional timezone adjustment: the half-second device clock delta is
halved (line 508 of the source). -/
def uwatec_smart_parser_get_datetime_ticks (model devtime : Nat)
    (systime : Int) (data : List Nat) : Except DcStatus Int :=
  match uwatec_smart_headersize model with
  | none => .error .invalidargs
  | some headersize =>
    if data.length < headersize then .error .dataformat
    else .ok (systime - (usub32 devtime (array_uint32_le data 8) / 2 : Nat))

/-- The epoch ticks computed by uwatec_memomouse_parser_get_datetime:
the device clock delta is halved. -/
def uwatec_memomouse_parser_get_datetime_ticks (devtime : Nat)
    (systime : Int) (data : List Nat) : Except DcStatus Int :=
  if data.length < 11 + 4 then .error .dataformat
  else .ok (systime - (usub32 devtime (array_uint32_le data 11) / 2 : Nat))

/-- The epoch ticks computed by reefnet_sensuspro_parser_get_datetime:
the delta is used unhalved. -/
def reefnet_sensuspro_parser_get_datetime_ticks (devtime : Nat)
    (systime : Int) (data : List Nat) : Except DcStatus Int :=
  if data.length < 6 + 4 then .error .dataformat
  else .ok (systime - (usub32 devtime (array_uint32_le data 6) : Nat))

/-- The epoch ticks computed by reefnet_sensusultra_parser_get_datetime:
the delta is used unhalved. -/
def reefnet_sensusultra_parser_get_datetime_ticks (devtime : Nat)
    (systime : Int) (data : List Nat) : Except DcStatus Int :=
  if data.length < 4 + 4 then .error .dataformat
  else .ok (systime - (usub32 devtime (array_uint32_le data 4) : Nat))

/-! ## Reefnet Sensus Pro parser (src/src/reefnet_sensuspro_parser.c) -/

/-- Modelled from the spec: dive mode constants of parser.h. -/
def DC_DIVEMODE_GAUGE : Nat := 1

/-- Lazily populated field cache of the Sensus Pro parser. -/
structure SensusProCache where
  cached : Bool
  divetime : Nat
  maxdepth : Nat
  deriving DecidableEq, Repr

/-- Field-cache scan of reefnet_sensuspro_parser_get_field: counts the
2-byte samples from offset 10 up to the 0xFF 0xFF footer and tracks the
maximum depth. -/
def reefnet_sensuspro_count_loop (data : List Nat)
    (size offset maxdepth nsamples : Nat) : Nat → Nat × Nat
  | 0 => (maxdepth, nsamples)
  | fuel + 1 =>
    if offset + 2 ≤ size ∧ ¬ array_isequal data offset 2 0xFF = true then
      let value := array_uint16_le data offset
      let depth := value &&& 0x01FF
      reefnet_sensuspro_count_loop data size (offset + 2)
        (if maxdepth < depth then depth else maxdepth) (nsamples + 1) fuel
    else (maxdepth, nsamples)

/-- Embedding of reefnet_sensuspro_parser_get_field: populates the cache
by scanning the samples, then decodes the requested field, converting the
cached absolute pressure through the installed calibration. -/
def reefnet_sensuspro_parser_get_field (data : List Nat)
    (cache : SensusProCache) (atmospheric hydrostatic : ℚ)
    (ftype : DcFieldType) : Except DcStatus (FieldValue × SensusProCache) :=
  if data.length < 12 then .error .dataformat
  else
    let c := if cache.cached then cache
      else
        let interval := array_uint16_le data 4
        let scan := reefnet_sensuspro_count_loop data data.length 10 0 0
          (data.length + 1)
        ⟨true, scan.2 * interval, scan.1⟩
    match ftype with
    | .divetime => .ok (.uint c.divetime, c)
    | .maxdepth =>
        .ok (.real (((c.maxdepth : ℚ) * FSW - atmospheric) / hydrostatic), c)
    | .gasmix_count => .ok (.uint 0, c)
    | .divemode => .ok (.divemode DC_DIVEMODE_GAUGE, c)
    | _ => .error .unsupported

/-- Inner sample loop of reefnet_sensuspro_parser_samples_foreach: emits
time, temperature and calibrated depth for every 2-byte sample before the
0xFF 0xFF footer. -/
def reefnet_sensuspro_inner_loop (data : List Nat) (size : Nat)
    (atmospheric hydrostatic : ℚ) (interval time offset : Nat) :
    Nat → List DcSample
  | 0 => []
  | fuel + 1 =>
    if offset + 2 ≤ size ∧ ¬ array_isequal data offset 2 0xFF = true then
      let value := array_uint16_le data offset
      let depth := value &&& 0x01FF
      let temperature := (value &&& 0xFE00) >>> 9
      let time' := time + interval
      [DcSample.time time',
        DcSample.temperature (((temperature : ℚ) - 32) * (5 / 9)),
        DcSample.depth (((depth : ℚ) * FSW - atmospheric) / hydrostatic)] ++
        reefnet_sensuspro_inner_loop data size atmospheric hydrostatic
          interval time' (offset + 2) fuel
    else []

/-- Outer scan of reefnet_sensuspro_parser_samples_foreach: searches for
the four-zero-byte dive header, requires ten bytes of header once found,
and parses the samples that follow it. -/
def reefnet_sensuspro_scan_loop (data : List Nat) (size : Nat)
    (atmospheric hydrostatic : ℚ) (offset : Nat) :
    Nat → DcStatus × List DcSample
  | 0 => (.success, [])
  | fuel + 1 =>
    if offset + 4 ≤ size then
      if array_isequal data offset 4 0x00 then
        if size < offset + 10 then (.dataformat, [])
        else
          let interval := array_uint16_le data (offset + 4)
          (.success, reefnet_sensuspro_inner_loop data size atmospheric
            hydrostatic interval 0 (offset + 10) (size + 1))
      else
        reefnet_sensuspro_scan_loop data size atmospheric hydrostatic
          (offset + 1) fuel
    else (.success, [])

/-- Embedding of reefnet_sensuspro_parser_samples_foreach: no size guard;
a blob without the header marker yields success with no samples. -/
def reefnet_sensuspro_parser_samples_foreach (data : List Nat)
    (atmospheric hydrostatic : ℚ) : DcStatus × List DcSample :=
  reefnet_sensuspro_scan_loop data data.length atmospheric hydrostatic 0
    (data.length + 1)

/-! ## Suunto Common2 ringbuffer enumeration (src/src/suunto_common2.c) -/

/-- Ringbuffer layout slice of suunto_common2_layout_t used by the
enumeration: profile arena bounds and the fingerprint offset. -/
structure SuuntoLayout where
  rb_profile_begin : Nat
  rb_profile_end : Nat
  fingerprint : Nat
  deriving DecidableEq, Repr

/-- Modelled from the spec: ringbuffer.c is not under src.  The spec
(section 4.4) defines distance as the modular distance in the arena,
with the full size returned for equal pointers in full mode. -/
def ringbuffer_distance (a b : Nat) (full : Bool) (rbegin rend : Nat) : Nat :=
  if a < b then b - a
  else if b < a then (rend - rbegin) - (a - b)
  else if full then rend - rbegin else 0

/-- Address of the k-th byte after ring address a, wrapping inside the
profile arena. -/
def ringAddr (l : SuuntoLayout) (a k : Nat) : Nat :=
  l.rb_profile_begin +
    ((a - l.rb_profile_begin) + k) % (l.rb_profile_end - l.rb_profile_begin)

/-- Byte of the device memory at the k-th position after ring address a. -/
def ringByte (mem : Nat → Nat) (l : SuuntoLayout) (a k : Nat) : Nat :=
  mem (ringAddr l a k)

/-- 16-bit little-endian read at the k-th position after ring address a. -/
def ringRead16 (mem : Nat → Nat) (l : SuuntoLayout) (a k : Nat) : Nat :=
  ringByte mem l a k + 256 * ringByte mem l a (k + 1)

/-- Fingerprint comparison of the enumeration: the stored fingerprint
bytes against the dive bytes at the fingerprint offset past the pointer
pair. -/
def suunto_fingerprint_match (mem : Nat → Nat) (l : SuuntoLayout)
    (fp : List Nat) (current : Nat) : Bool :=
  (List.range fp.length).all fun i =>
    ringByte mem l current (l.fingerprint + 4 + i) == fp.getD i 0

/-- Traversal loop of suunto_common2_device_foreach: walks the dives
backwards from the most recent one.  Each dive record starts with its
prev and next pointers; a pointer outside the arena or a discontinuity
with the previous dive aborts with a data-format error, an incomplete
dive (next pointing at the dive itself) is skipped with a delayed
data-format status, a fingerprint match ends the enumeration
successfully, and otherwise the dive (start address and size) is
delivered to the callback. -/
def suunto_common2_foreach_loop (mem : Nat → Nat) (l : SuuntoLayout)
    (fp : List Nat) (remaining current previous : Nat) (delayed : DcStatus)
    (delivered : List (Nat × Nat)) : Nat → DcStatus × List (Nat × Nat)
  | 0 => (delayed, delivered)
  | fuel + 1 =>
    if remaining ≠ 0 then
      let size := ringbuffer_distance current previous true
        l.rb_profile_begin l.rb_profile_end
      if size < 4 ∨ remaining < size then (.dataformat, delivered)
      else
        let prev := ringRead16 mem l current 0
        let next := ringRead16 mem l current 2
        if prev < l.rb_profile_begin ∨ l.rb_profile_end ≤ prev ∨
            next < l.rb_profile_begin ∨ l.rb_profile_end ≤ next then
          (.dataformat, delivered)
        else if next ≠ previous ∧ next ≠ current then
          (.dataformat, delivered)
        else if next ≠ current then
          if suunto_fingerprint_match mem l fp current then
            (.success, delivered)
          else
            suunto_common2_foreach_loop mem l fp (remaining - size) prev
              current delayed (delivered ++ [(current, size)]) fuel
        else
          suunto_common2_foreach_loop mem l fp (remaining - size) prev
            current .dataformat delivered fuel
    else (delayed, delivered)

/-- Embedding of suunto_common2_device_foreach from the point where the
header pointers (last, count, end, begin) have been read: validates them
against the arena and traverses the ringbuffer.  Device memory is the
function mem; the user callback is modelled as always continuing, and
the delivered dives are returned as (start address, size) pairs. -/
def suunto_common2_device_foreach (mem : Nat → Nat) (l : SuuntoLayout)
    (fp : List Nat) (last count endp beginp : Nat) :
    DcStatus × List (Nat × Nat) :=
  if last < l.rb_profile_begin ∨ l.rb_profile_end ≤ last ∨
      endp < l.rb_profile_begin ∨ l.rb_profile_end ≤ endp ∨
      beginp < l.rb_profile_begin ∨ l.rb_profile_end ≤ beginp then
    (.dataformat, [])
  else
    let remaining := ringbuffer_distance beginp endp (count ≠ 0)
      l.rb_profile_begin l.rb_profile_end
    suunto_common2_foreach_loop mem l fp remaining last endp .success []
      (remaining + 1)

/-! ## Uwatec Smart sample type identification
(src/src/uwatec_smart_parser.c) -/

/-- Sample kinds of the Uwatec Smart sample descriptor tables. -/
inductive UwatecSampleType
  | pressure_depth
  | rbt
  | temperature
  | pressure
  | depth
  | heartrate
  | bearing
  | alarms
  | time
  | unknown1
  | unknown2
  deriving DecidableEq, Repr

/-- One entry of a Uwatec Smart sample descriptor table
(uwatec_smart_sample_info_t). -/
structure UwatecSampleInfo where
  stype : UwatecSampleType
  absolute : Nat
  index : Nat
  ntypebits : Nat
  ignoretype : Nat
  extrabytes : Nat
  deriving DecidableEq, Repr

/-- The Aladin Tec sample descriptor table uwatec_smart_aladin_samples. -/
def uwatec_smart_aladin_samples : List UwatecSampleInfo :=
  [⟨.depth,       0, 0, 1, 0, 0⟩,
   ⟨.temperature, 0, 0, 2, 0, 0⟩,
   ⟨.time,        1, 0, 3, 0, 0⟩,
   ⟨.alarms,      1, 0, 4, 0, 0⟩,
   ⟨.depth,       0, 0, 5, 0, 1⟩,
   ⟨.temperature, 0, 0, 6, 0, 1⟩,
   ⟨.depth,       1, 0, 7, 1, 2⟩,
   ⟨.temperature, 1, 0, 8, 0, 2⟩,
   ⟨.alarms,      1, 1, 9, 0, 0⟩]

/-- Inner bit loop of uwatec_smart_identify over one byte: checks the
bits from the most significant one down; a clear bit yields the count
accumulated so far, and a byte of all ones continues into the next byte.
The last argument counts the bits of the byte still to inspect. -/
def uwatec_smart_identify_bits (value count : Nat) : Nat → Option Nat
  | 0 => none
  | rem + 1 =>
    if value &&& (1 <<< rem) = 0 then some count
    else uwatec_smart_identify_bits value (count + 1) rem

/-- Byte loop of uwatec_smart_identify: consumes bytes until a clear bit
is found; exhausting the buffer yields the C value (unsigned int) -1. -/
def uwatec_smart_identify_loop : List Nat → Nat → Nat
  | [], _ => 4294967295
  | v :: rest, count =>
    match uwatec_smart_identify_bits v count 8 with
    | some c => c
    | none => uwatec_smart_identify_loop rest (count + 8)

/-- Embedding of uwatec_smart_identify: the sample type index is the
number of leading one bits of the buffer. -/
def uwatec_smart_identify (data : List Nat) : Nat :=
  uwatec_smart_identify_loop data 0

/-- Most-significant-bit-first bit sequence of one byte. -/
def byteBitsMSB (b : Nat) : List Bool :=
  (List.range 8).map fun j => decide (b &&& (1 <<< (7 - j)) ≠ 0)

/-- The bit stream of a byte buffer, most significant bit first. -/
def bitstream (data : List Nat) : List Bool :=
  (data.map byteBitsMSB).flatten

/-- The count of leading one bits of a bit sequence, the quantity the
spec describes for the Smart identifier style. -/
def leadingOnes (l : List Bool) : Nat := (l.takeWhile id).length

/-- The low rem bits of a value, most significant first; at rem = 8
this is the bit sequence of a byte. -/
def bitsFrom (b : Nat) : Nat → List Bool
  | 0 => []
  | rem + 1 => decide (b &&& (1 <<< rem) ≠ 0) :: bitsFrom b rem

/-! ## Oceanic Atom2 parser (src/src/oceanic_atom2_parser.c) -/

/-- Modelled from the spec: oceanic_common.h is not under src.  The spec
(section 4.4) expresses Oceanic header and footer sizes in half-pages of
8 bytes, so a page is 16 bytes. -/
def PAGESIZE : Nat := 16

/-- Model code ATOM1. -/
def ATOM1 : Nat := 0x4250

/-- Model code EPICA. -/
def EPICA : Nat := 0x4257

/-- Model code VT3. -/
def VT3 : Nat := 0x4258

/-- Model code T3A. -/
def T3A : Nat := 0x4259

/-- Model code ATOM2. -/
def ATOM2 : Nat := 0x4342

/-- Model code GEO. -/
def GEO : Nat := 0x4344

/-- Model code MANTA. -/
def MANTA : Nat := 0x4345

/-- Model code DATAMASK. -/
def DATAMASK : Nat := 0x4347

/-- Model code COMPUMASK. -/
def COMPUMASK : Nat := 0x4348

/-- Model code OC1A. -/
def OC1A : Nat := 0x434E

/-- Model code F10. -/
def F10 : Nat := 0x434D

/-- Model code WISDOM2. -/
def WISDOM2 : Nat := 0x4350

/-- Model code INSIGHT2. -/
def INSIGHT2 : Nat := 0x4353

/-- Model code ELEMENT2. -/
def ELEMENT2 : Nat := 0x4357

/-- Model code VEO20. -/
def VEO20 : Nat := 0x4359

/-- Model code VEO30. -/
def VEO30 : Nat := 0x435A

/-- Model code ZEN. -/
def ZEN : Nat := 0x4441

/-- Model code ZENAIR. -/
def ZENAIR : Nat := 0x4442

/-- Model code ATMOSAI2. -/
def ATMOSAI2 : Nat := 0x4443

/-- Model code PROPLUS21. -/
def PROPLUS21 : Nat := 0x4444

/-- Model code GEO20. -/
def GEO20 : Nat := 0x4446

/-- Model code VT4. -/
def VT4 : Nat := 0x4447

/-- Model code OC1B. -/
def OC1B : Nat := 0x4449

/-- Model code VOYAGER2G. -/
def VOYAGER2G : Nat := 0x444B

/-- Model code ATOM3. -/
def ATOM3 : Nat := 0x444C

/-- Model code DG03. -/
def DG03 : Nat := 0x444D

/-- Model code OCS. -/
def OCS : Nat := 0x4450

/-- Model code OC1C. -/
def OC1C : Nat := 0x4451

/-- Model code VT41. -/
def VT41 : Nat := 0x4452

/-- Model code EPICB. -/
def EPICB : Nat := 0x4453

/-- Model code T3B. -/
def T3B : Nat := 0x4455

/-- Model code ATOM31. -/
def ATOM31 : Nat := 0x4456

/-- Model code A300AI. -/
def A300AI : Nat := 0x4457

/-- Model code WISDOM3. -/
def WISDOM3 : Nat := 0x4458

/-- Model code A300. -/
def A300 : Nat := 0x445A

/-- Model code TX1. -/
def TX1 : Nat := 0x4542

/-- Model code AMPHOS. -/
def AMPHOS : Nat := 0x4545

/-- Model code AMPHOSAIR. -/
def AMPHOSAIR : Nat := 0x4546

/-- Model code PROPLUS3. -/
def PROPLUS3 : Nat := 0x4548

/-- Model code F11. -/
def F11 : Nat := 0x4549

/-- Model code OCI. -/
def OCI : Nat := 0x454B

/-- Model code A300CS. -/
def A300CS : Nat := 0x454C

/-- Model code VTX. -/
def VTX : Nat := 0x4557

/-- Dive mode NORMAL. -/
def NORMAL : Nat := 0

/-- Dive mode GAUGE. -/
def GAUGE : Nat := 1

/-- Dive mode FREEDIVE. -/
def FREEDIVE : Nat := 2

/-- The model-dependent header size set by oceanic_atom2_parser_create. -/
def oceanic_atom2_headersize (model : Nat) : Nat :=
  if model = DATAMASK ∨ model = COMPUMASK ∨ model = GEO ∨ model = GEO20 ∨
      model = VEO20 ∨ model = VEO30 ∨ model = OCS ∨ model = PROPLUS3 ∨
      model = A300 ∨ model = MANTA ∨ model = INSIGHT2 ∨ model = ZEN then
    9 * PAGESIZE / 2 - PAGESIZE
  else if model = VT4 ∨ model = VT41 then 9 * PAGESIZE / 2 + PAGESIZE
  else if model = TX1 then 9 * PAGESIZE / 2 + 2 * PAGESIZE
  else if model = ATOM1 then 9 * PAGESIZE / 2 - 2 * PAGESIZE
  else if model = F10 then 3 * PAGESIZE
  else if model = F11 then 5 * PAGESIZE
  else if model = A300CS ∨ model = VTX then 5 * PAGESIZE
  else 9 * PAGESIZE / 2

/-- The model-dependent footer size set by oceanic_atom2_parser_create. -/
def oceanic_atom2_footersize (model : Nat) : Nat :=
  if model = F10 ∨ model = F11 then PAGESIZE / 2 else 2 * PAGESIZE / 2

/-- Surface-interval insertion loop of the 0xBB sample: inserts
surftime / interval synthetic zero-depth samples, emitting a time sample
first whenever the previous sample was complete.  Returns the emitted
samples together with the final time and completion state. -/
def oceanic_atom2_bb_loop (interval time complete : Nat) :
    Nat → List DcSample × Nat × Nat
  | 0 => ([], time, complete)
  | n + 1 =>
    let time' := if complete ≠ 0 then time + interval else time
    let ts : List DcSample := if complete ≠ 0 then [DcSample.time time'] else []
    let rest := oceanic_atom2_bb_loop interval time' 1 n
    (ts ++ [DcSample.depth 0] ++ rest.1, rest.2)

/-- Sample loop of oceanic_atom2_parser_samples_foreach.  Mirrors the
source: empty (all 0x00 or all 0xFF) records are skipped, a complete
previous sample advances the time by the interval and emits a time
sample, every record is delivered as a vendor sample, 0xAA records
update the tank and absolute pressure, 0xBB records insert the surface
interval, and all other records decode temperature, tank pressure,
depth and (A300CS or VTX) the deco state with model-dependent layouts. -/
def oceanic_atom2_samples_loop (data : List Nat)
    (size model header footersize mode interval samplesize : Nat)
    (haveT haveP : Bool) (temperature tank pressure time complete offset : Nat) :
    Nat → DcStatus × List DcSample
  | 0 => (.dataformat, [])
  | fuel + 1 =>
    if offset + samplesize ≤ size - footersize then
      if array_isequal data offset samplesize 0x00 ∨
          array_isequal data offset samplesize 0xFF then
        oceanic_atom2_samples_loop data size model header footersize mode
          interval samplesize haveT haveP temperature tank pressure
          time complete (offset + samplesize) fuel
      else
        let time' := if complete ≠ 0 then time + interval else time
        let timeS : List DcSample :=
          if complete ≠ 0 then [DcSample.time time'] else []
        let sampletype := if mode = FREEDIVE then 0 else byteAt data offset
        let length := if sampletype = 0xBB then PAGESIZE else samplesize
        if sampletype = 0xBB ∧ size - PAGESIZE < offset + length then
          (.dataformat, timeS)
        else
          let vendorS := [DcSample.vendor SAMPLE_VENDOR_OCEANIC_ATOM2 length]
          if sampletype = 0xAA then
            let tank' := if model = DATAMASK ∨ model = COMPUMASK then 0
              else usub32 (byteAt data (offset + 1) &&& 0x03) 1
            let pressure' :=
              if model = DATAMASK ∨ model = COMPUMASK then
                ((byteAt data (offset + 7) <<< 8) + byteAt data (offset + 6)) &&& 0x0FFF
              else if model = A300CS ∨ model = VTX then
                ((byteAt data (offset + 7) <<< 8) + byteAt data (offset + 6)) &&& 0x0FFF
              else if model = ATOM2 ∨ model = EPICA ∨ model = EPICB then
                (((byteAt data (offset + 3) <<< 8) + byteAt data (offset + 4)) &&& 0x0FFF) * 2
              else
                (((byteAt data (offset + 4) <<< 8) + byteAt data (offset + 5)) &&& 0x0FFF) * 2
            let rest := oceanic_atom2_samples_loop data size model header
              footersize mode interval samplesize haveT haveP temperature
              tank' pressure' time' 0 (offset + length) fuel
            (rest.1, timeS ++ vendorS ++ rest.2)
          else if sampletype = 0xBB then
            let surftime := 60 * bcd2dec (byteAt data (offset + 1)) +
              bcd2dec (byteAt data (offset + 2))
            let nsamples := surftime / interval
            let bb := oceanic_atom2_bb_loop interval time' 0 nsamples
            let rest := oceanic_atom2_samples_loop data size model header
              footersize mode interval samplesize haveT haveP temperature
              tank pressure bb.2.1 bb.2.2 (offset + length) fuel
            (rest.1, timeS ++ vendorS ++ bb.1 ++ rest.2)
          else
            let temperature' :=
              if haveT then
                if model = GEO ∨ model = ATOM1 ∨ model = ELEMENT2 then
                  byteAt data (offset + 6)
                else if model = GEO20 ∨ model = VEO20 ∨ model = VEO30 ∨
                    model = OC1A ∨ model = OC1B ∨ model = OC1C ∨
                    model = OCI ∨ model = A300 then
                  byteAt data (offset + 3)
                else if model = OCS ∨ model = TX1 then
                  byteAt data (offset + 1)
                else if model = VT4 ∨ model = VT41 ∨ model = ATOM3 ∨
                    model = ATOM31 ∨ model = A300AI then
                  ((byteAt data (offset + 7) &&& 0xF0) >>> 4) |||
                    ((byteAt data (offset + 7) &&& 0x0C) <<< 2) |||
                    ((byteAt data (offset + 5) &&& 0x0C) <<< 4)
                else if model = A300CS ∨ model = VTX then
                  byteAt data (offset + 11)
                else
                  let sign :=
                    if model = DG03 ∨ model = PROPLUS3 then
                      (((byteAt data (offset + 5)) ^^^ 0xFF) &&& 0x04) >>> 2
                    else if model = VOYAGER2G ∨ model = AMPHOS ∨
                        model = AMPHOSAIR then
                      (byteAt data (offset + 5) &&& 0x04) >>> 2
                    else if model = ATOM2 ∨ model = PROPLUS21 ∨
                        model = EPICA ∨ model = EPICB ∨ model = ATMOSAI2 ∨
                        model = WISDOM2 ∨ model = WISDOM3 then
                      (byteAt data (offset + 0) &&& 0x80) >>> 7
                    else
                      (((byteAt data (offset + 0)) ^^^ 0xFF) &&& 0x80) >>> 7
                  if sign ≠ 0 then
                    usub32 temperature ((byteAt data (offset + 7) &&& 0x0C) >>> 2)
                  else
                    (temperature + ((byteAt data (offset + 7) &&& 0x0C) >>> 2)) %
                      4294967296
              else temperature
            let tempS : List DcSample :=
              if haveT then
                [DcSample.temperature (((temperature' : ℚ) - 32) * (5 / 9))]
              else []
            let pressure' :=
              if haveP then
                if model = OC1A ∨ model = OC1B ∨ model = OC1C ∨ model = OCI then
                  (byteAt data (offset + 10) + (byteAt data (offset + 11) <<< 8)) &&& 0x0FFF
                else if model = VT4 ∨ model = VT41 ∨ model = ATOM3 ∨
                    model = ATOM31 ∨ model = ZENAIR ∨ model = A300AI ∨
                    model = DG03 ∨ model = PROPLUS3 ∨ model = AMPHOSAIR then
                  (((byteAt data (offset + 0) &&& 0x03) <<< 8) +
                    byteAt data (offset + 1)) * 5
                else if model = TX1 ∨ model = A300CS ∨ model = VTX then
                  array_uint16_le data (offset + 4)
                else usub32 pressure (byteAt data (offset + 1))
              else pressure
            let pressS : List DcSample :=
              if haveP then
                [DcSample.pressure tank ((pressure' : ℚ) * PSI / BAR)]
              else []
            let depth :=
              if mode = FREEDIVE then array_uint16_le data offset
              else if model = GEO20 ∨ model = VEO20 ∨ model = VEO30 ∨
                  model = OC1A ∨ model = OC1B ∨ model = OC1C ∨
                  model = OCI ∨ model = A300 then
                (byteAt data (offset + 4) + (byteAt data (offset + 5) <<< 8)) &&& 0x0FFF
              else if model = ATOM1 then byteAt data (offset + 3) * 16
              else
                (byteAt data (offset + 2) + (byteAt data (offset + 3) <<< 8)) &&& 0x0FFF
            let depthS : List DcSample :=
              [DcSample.depth ((depth : ℚ) / 16 * FEET)]
            let decoS : List DcSample :=
              if model = A300CS ∨ model = VTX then
                let deco := (byteAt data (offset + 15) &&& 0x70) >>> 4
                [if deco ≠ 0 then
                  DcSample.deco DC_DECO_DECOSTOP ((deco * 10 : ℚ) * FEET)
                    (array_uint16_le data (offset + 6) &&& 0x03FF)
                else
                  DcSample.deco DC_DECO_NDL 0
                    (array_uint16_le data (offset + 6) &&& 0x03FF)]
              else []
            let rest := oceanic_atom2_samples_loop data size model header
              footersize mode interval samplesize haveT haveP temperature'
              tank pressure' time' 1 (offset + length) fuel
            (rest.1, timeS ++ vendorS ++ tempS ++ pressS ++ depthS ++ decoS ++ rest.2)
    else (.success, [])

/-- Embedding of oceanic_atom2_parser_samples_foreach: checks the
model-dependent minimum size, derives the header offset, dive mode,
sample interval, sample size and the availability of temperature and
tank pressure, and runs the sample loop over the profile region. -/
def oceanic_atom2_parser_samples_foreach (data : List Nat) (model : Nat) :
    DcStatus × List DcSample :=
  let size := data.length
  let headersize := oceanic_atom2_headersize model
  let footersize := oceanic_atom2_footersize model
  if size < headersize + footersize then (.dataformat, [])
  else
    let header := if model = VT4 ∨ model = VT41 ∨ model = A300AI then
      3 * PAGESIZE else headersize - PAGESIZE / 2
    let mode :=
      if model = F10 ∨ model = F11 then FREEDIVE
      else if model = T3B ∨ model = VT3 ∨ model = DG03 then
        (byteAt data 2 &&& 0xC0) >>> 6
      else if model = VEO20 ∨ model = VEO30 then
        (byteAt data 1 &&& 0x60) >>> 5
      else NORMAL
    let interval :=
      if mode ≠ FREEDIVE then
        match byteAt data (if model = A300CS ∨ model = VTX then 0x1f else 0x17)
            &&& 0x03 with
        | 0 => 2
        | 1 => 15
        | 2 => 30
        | _ => 60
      else 1
    let samplesize :=
      if mode = FREEDIVE then
        if model = F10 ∨ model = F11 then 2 else 4
      else if model = OC1A ∨ model = OC1B ∨ model = OC1C ∨ model = OCI ∨
          model = TX1 ∨ model = A300CS ∨ model = VTX then PAGESIZE
      else PAGESIZE / 2
    let haveT := if mode = FREEDIVE then false else true
    let havePinit :=
      if mode = FREEDIVE then false
      else if model = VEO30 ∨ model = OCS ∨ model = ELEMENT2 ∨
          model = VEO20 ∨ model = A300 ∨ model = ZEN ∨ model = GEO ∨
          model = GEO20 ∨ model = MANTA then false
      else true
    let temperature := if haveT then byteAt data (header + 7) else 0
    let pidx := if model = A300CS ∨ model = VTX then 16 else 2
    let pressure :=
      if havePinit then
        byteAt data (header + pidx) + (byteAt data (header + pidx + 1) <<< 8)
      else 0
    let haveP := havePinit ∧ pressure ≠ 10000
    oceanic_atom2_samples_loop data size model header footersize mode interval
      samplesize haveT (decide haveP) temperature 0 pressure 0 1 headersize
      (size + 1)

/-! ## Helper definitions and concrete inputs used by the verification -/

/-- Fold step extracting the value of the last TIME sample of a stream. -/
def timeFold (acc : Nat) (s : DcSample) : Nat :=
  match s with
  | .time t => t
  | _ => acc

/-- The value of the last TIME sample of a stream (default d when the
stream holds no TIME sample). -/
def lastTimeValue (l : List DcSample) (d : Nat) : Nat := l.foldl timeFold d

/-- One iDive sample record of 0x2A bytes whose timestamp is the single
byte ts and whose other fields are zero. -/
def idive_record (ts : Nat) : List Nat :=
  [0, 0, ts, 0, 0, 0] ++ List.replicate 36 0

/-- iDive input whose two samples carry timestamps 10 then 9. -/
def idive_backwards_data : List Nat :=
  List.replicate 0x32 0 ++ idive_record 10 ++ idive_record 9

/-- iDive input whose two samples carry equal timestamps 10 and 10. -/
def idive_equal_ts_data : List Nat :=
  List.replicate 0x32 0 ++ idive_record 10 ++ idive_record 10

/-- iDive input with one valid sample of timestamp 10. -/
def idive_single_data : List Nat :=
  List.replicate 0x32 0 ++ idive_record 10

/-- The sample stream emitted for idive_single_data. -/
def idive_single_samples : List DcSample :=
  [.time 10, .depth 0, .temperature 0, .event SAMPLE_EVENT_GASCHANGE2 0,
    .deco DC_DECO_NDL 0 0, .cns 0]

/-- The 82-byte Cressi Leonardo header of spec scenario 1: divetime
field 0x003C, oxygen byte 0x28, max depth 0x0064, temperature byte 0x14
and date bytes 0x18 0x03 0x0F 0x0A 0x1E. -/
def cressi_scenario_header : List Nat :=
  [0, 0, 0, 0, 0, 0, 0x3C, 0x00,
   0x18, 0x03, 0x0F, 0x0A, 0x1E, 0, 0, 0,
   0, 0, 0, 0, 0, 0, 0, 0,
   0, 0x28, 0, 0, 0, 0, 0, 0,
   0x64, 0x00, 0x14, 0, 0, 0, 0, 0] ++ List.replicate 42 0

/-- Cressi Leonardo input: the scenario header followed by one 2-byte
sample, so that the stored divetime field (1200 s) disagrees with the
single 20-second sample the profile holds. -/
def cressi_one_sample_data : List Nat :=
  cressi_scenario_header ++ [0x05, 0x00]

/-- Undersized blob for the minimum-size guards. -/
def undersized_blob : List Nat := List.replicate 10 0

/-- Shearwater Petrel record of 416 bytes: header block with the
imperial units byte set, one non-empty 32-byte sample with big-endian
depth field 100, and two footer blocks. -/
def shearwater_imperial_data : List Nat :=
  (List.replicate 8 0 ++ [1] ++ List.replicate 119 0) ++
  ([0x00, 0x64] ++ List.replicate 30 0) ++
  List.replicate 256 0

/-- Blob of 92 zero bytes: minimal Uwatec Smart Pro record whose stored
timestamp is 0, also large enough for the other clock-pair parsers. -/
def zero_header_92 : List Nat := List.replicate 92 0

/-- Layout of the ringbuffer scenarios: arena [0, 100), fingerprint
offset 0. -/
def suunto_test_layout : SuuntoLayout := ⟨0, 100, 0⟩

/-- Device memory bytes of the abort scenario: two 10-byte dives at
[30, 40) and [40, 50).  The newest dive (at 40) stores next = 30, which
is neither the previous pointer 50 nor its own start 40. -/
def suunto_memA_bytes : List Nat :=
  List.replicate 30 0 ++
  ([30, 0, 40, 0] ++ List.replicate 6 0) ++
  ([30, 0, 30, 0] ++ List.replicate 6 0) ++
  List.replicate 50 0

/-- Device memory of the abort scenario as a function. -/
def suunto_memA : Nat → Nat := fun a => suunto_memA_bytes.getD a 0

/-- Device memory bytes of the skip scenario: as in the abort scenario,
but the newest dive stores next = 40, its own start address, marking an
incomplete dive. -/
def suunto_memB_bytes : List Nat :=
  List.replicate 30 0 ++
  ([30, 0, 40, 0] ++ List.replicate 6 0) ++
  ([30, 0, 40, 0] ++ List.replicate 6 0) ++
  List.replicate 50 0

/-- Device memory of the skip scenario as a function. -/
def suunto_memB : Nat → Nat := fun a => suunto_memB_bytes.getD a 0

/-- Oceanic Atom2 record of 104 bytes for the ATOM2 model: interval
bits select 30 seconds, the initial tank pressure field is 10000
(disabling pressure samples), and the single profile record is a 0xBB
surface-interval sample encoding 1 minute 30 seconds. -/
def oceanic_bb_data : List Nat :=
  List.replicate 23 0 ++ [2] ++
  List.replicate 42 0 ++ [0x10, 0x27] ++
  List.replicate 4 0 ++
  [0xBB, 0x01, 0x30] ++ List.replicate 29 0

/-! ## Lemmas about the DiveSystem iDive sample loop -/

set_option maxRecDepth 40000

theorem idive_loop_ok_step (data : List Nat) (size offset time md : Nat)
    (mixes : List (Nat × Nat)) (o2p hep fuel : Nat)
    (hle : offset + idive_SZ_SAMPLE ≤ size)
    (h : ∃ r, divesystem_idive_samples_loop data size offset time md mixes o2p hep fuel = .ok r) :
    time < idive_ts data offset ∧
      ∃ fuel' md' mixes' o2p' hep' r',
        divesystem_idive_samples_loop data size (offset + idive_SZ_SAMPLE)
          (idive_ts data offset) md' mixes' o2p' hep' fuel' = .ok r' := by
  obtain ⟨r, hr⟩ := h
  cases fuel with
  | zero => exact absurd hr (by simp [divesystem_idive_samples_loop])
  | succ fuel' =>
    rw [divesystem_idive_samples_loop, if_pos hle] at hr
    by_cases hts : idive_ts data offset ≤ time
    · rw [if_pos hts] at hr
      exact absurd hr (by simp)
    · rw [if_neg hts] at hr
      refine ⟨by omega, ?_⟩
      by_cases hover : (byteAt data (offset + 10) ≠ o2p ∨ byteAt data (offset + 11) ≠ hep) ∧
          (byteAt data (offset + 10), byteAt data (offset + 11)) ∉ mixes ∧
          idive_NGASMIXES ≤ mixes.length
      · rw [if_pos hover] at hr
        exact absurd hr (by simp)
      · rw [if_neg hover] at hr
        simp only [] at hr
        split at hr
        · exact absurd hr (by simp)
        · rename_i rest t md2 ms2 heq
          exact ⟨fuel', _, _, _, _, _, heq⟩

theorem idive_loop_ok_lt (data : List Nat) (size : Nat) :
    ∀ (k offset time md : Nat) (mixes : List (Nat × Nat)) (o2p hep fuel : Nat),
      (∃ r, divesystem_idive_samples_loop data size offset time md mixes o2p hep fuel = .ok r) →
      offset + idive_SZ_SAMPLE * k + idive_SZ_SAMPLE ≤ size →
      time < idive_ts data (offset + idive_SZ_SAMPLE * k) := by
  intro k
  induction k with
  | zero =>
    intro offset time md mixes o2p hep fuel h hle
    have := (idive_loop_ok_step data size offset time md mixes o2p hep fuel
      (by simpa using hle) h).1
    simpa using this
  | succ k ih =>
    intro offset time md mixes o2p hep fuel h hle
    have hle0 : offset + idive_SZ_SAMPLE ≤ size := by
      rw [Nat.mul_succ] at hle
      omega
    obtain ⟨hlt, fuel', md', mixes', o2p', hep', r', hrec⟩ :=
      idive_loop_ok_step data size offset time md mixes o2p hep fuel hle0 h
    have hrec2 := ih (offset + idive_SZ_SAMPLE) (idive_ts data offset) md' mixes' o2p' hep' fuel'
      ⟨r', hrec⟩ (by rw [Nat.mul_succ] at hle; omega)
    have harith : offset + idive_SZ_SAMPLE + idive_SZ_SAMPLE * k =
        offset + idive_SZ_SAMPLE * (k + 1) := by ring
    rw [harith] at hrec2
    omega

theorem idive_loop_ok_consecutive (data : List Nat) (size : Nat) :
    ∀ (k offset time md : Nat) (mixes : List (Nat × Nat)) (o2p hep fuel : Nat),
      (∃ r, divesystem_idive_samples_loop data size offset time md mixes o2p hep fuel = .ok r) →
      offset + idive_SZ_SAMPLE * (k + 1) + idive_SZ_SAMPLE ≤ size →
      idive_ts data (offset + idive_SZ_SAMPLE * k) <
        idive_ts data (offset + idive_SZ_SAMPLE * (k + 1)) := by
  intro k
  induction k with
  | zero =>
    intro offset time md mixes o2p hep fuel h hle
    have hle0 : offset + idive_SZ_SAMPLE ≤ size := by
      rw [Nat.mul_succ] at hle
      omega
    obtain ⟨hlt, fuel', md', mixes', o2p', hep', r', hrec⟩ :=
      idive_loop_ok_step data size offset time md mixes o2p hep fuel hle0 h
    have hrec2 := idive_loop_ok_lt data size 0 (offset + idive_SZ_SAMPLE)
      (idive_ts data offset) md' mixes' o2p' hep' fuel' ⟨r', hrec⟩
      (by rw [Nat.mul_succ] at hle; omega)
    have harith : offset + idive_SZ_SAMPLE + idive_SZ_SAMPLE * 0 =
        offset + idive_SZ_SAMPLE * (0 + 1) := by ring
    rw [harith] at hrec2
    simpa using hrec2
  | succ k ih =>
    intro offset time md mixes o2p hep fuel h hle
    have hle0 : offset + idive_SZ_SAMPLE ≤ size := by
      rw [Nat.mul_succ] at hle
      omega
    obtain ⟨hlt, fuel', md', mixes', o2p', hep', r', hrec⟩ :=
      idive_loop_ok_step data size offset time md mixes o2p hep fuel hle0 h
    have hrec2 := ih (offset + idive_SZ_SAMPLE) (idive_ts data offset) md' mixes' o2p' hep' fuel'
      ⟨r', hrec⟩ (by rw [Nat.mul_succ] at hle; omega)
    have ha1 : offset + idive_SZ_SAMPLE + idive_SZ_SAMPLE * k =
        offset + idive_SZ_SAMPLE * (k + 1) := by ring
    have ha2 : offset + idive_SZ_SAMPLE + idive_SZ_SAMPLE * (k + 1) =
        offset + idive_SZ_SAMPLE * (k + 1 + 1) := by ring
    rw [ha1, ha2] at hrec2
    exact hrec2

theorem idive_loop_error_dataformat (data : List Nat) (size : Nat) :
    ∀ (fuel offset time md : Nat) (mixes : List (Nat × Nat)) (o2p hep : Nat) (e : DcStatus),
      divesystem_idive_samples_loop data size offset time md mixes o2p hep fuel = .error e →
      e = .dataformat := by
  intro fuel
  induction fuel with
  | zero =>
    intro offset time md mixes o2p hep e h
    rw [divesystem_idive_samples_loop] at h
    simpa using h.symm
  | succ fuel ih =>
    intro offset time md mixes o2p hep e h
    rw [divesystem_idive_samples_loop] at h
    by_cases h1 : offset + idive_SZ_SAMPLE ≤ size
    · rw [if_pos h1] at h
      by_cases hts : idive_ts data offset ≤ time
      · rw [if_pos hts] at h
        simpa using h.symm
      · rw [if_neg hts] at h
        by_cases hover : (byteAt data (offset + 10) ≠ o2p ∨ byteAt data (offset + 11) ≠ hep) ∧
            (byteAt data (offset + 10), byteAt data (offset + 11)) ∉ mixes ∧
            idive_NGASMIXES ≤ mixes.length
        · rw [if_pos hover] at h
          simpa using h.symm
        · rw [if_neg hover] at h
          simp only [] at h
          split at h
          · rename_i e' heq
            have he' := ih _ _ _ _ _ _ _ heq
            simp only [Except.error.injEq] at h
            rw [← h]
            exact he'
          · exact absurd h (by simp)
    · rw [if_neg h1] at h
      exact absurd h (by simp)

theorem foldl_timeFold_no_time (l : List DcSample)
    (h : ∀ s ∈ l, ∀ acc, timeFold acc s = acc) (a : Nat) :
    l.foldl timeFold a = a := by
  induction l generalizing a with
  | nil => rfl
  | cons x xs ih =>
    rw [List.foldl_cons, h x (by simp), ih]
    intro s hs acc
    exact h s (by simp [hs]) acc

theorem idive_loop_ok_nil (data : List Nat) (size : Nat)
    (fuel offset time md : Nat) (mixes : List (Nat × Nat)) (o2p hep : Nat)
    (t mdm : Nat) (ms : List (Nat × Nat))
    (h : divesystem_idive_samples_loop data size offset time md mixes o2p hep fuel =
      .ok ([], t, mdm, ms)) : t = time := by
  cases fuel with
  | zero =>
    rw [divesystem_idive_samples_loop] at h
    exact absurd h (by simp)
  | succ fuel =>
    rw [divesystem_idive_samples_loop] at h
    by_cases h1 : offset + idive_SZ_SAMPLE ≤ size
    · rw [if_pos h1] at h
      by_cases hts : idive_ts data offset ≤ time
      · rw [if_pos hts] at h
        exact absurd h (by simp)
      · rw [if_neg hts] at h
        by_cases hover : (byteAt data (offset + 10) ≠ o2p ∨ byteAt data (offset + 11) ≠ hep) ∧
            (byteAt data (offset + 10), byteAt data (offset + 11)) ∉ mixes ∧
            idive_NGASMIXES ≤ mixes.length
        · rw [if_pos hover] at h
          exact absurd h (by simp)
        · rw [if_neg hover] at h
          simp only [] at h
          split at h
          · exact absurd h (by simp)
          · rename_i rest t2 md2 ms2 heq
            simp only [Except.ok.injEq, Prod.mk.injEq] at h
            exact absurd h.1 (by simp)
    · rw [if_neg h1] at h
      simp only [Except.ok.injEq, Prod.mk.injEq] at h
      omega

theorem idive_loop_ok_lastTime (data : List Nat) (size : Nat) :
    ∀ (fuel offset time md : Nat) (mixes : List (Nat × Nat)) (o2p hep : Nat)
      (samples : List DcSample) (t mdm : Nat) (ms : List (Nat × Nat)),
      divesystem_idive_samples_loop data size offset time md mixes o2p hep fuel =
        .ok (samples, t, mdm, ms) →
      ∀ a, samples.foldl timeFold a = if samples.isEmpty then a else t := by
  intro fuel
  induction fuel with
  | zero =>
    intro offset time md mixes o2p hep samples t mdm ms h
    rw [divesystem_idive_samples_loop] at h
    exact absurd h (by simp)
  | succ fuel ih =>
    intro offset time md mixes o2p hep samples t mdm ms h a
    rw [divesystem_idive_samples_loop] at h
    by_cases h1 : offset + idive_SZ_SAMPLE ≤ size
    · rw [if_pos h1] at h
      by_cases hts : idive_ts data offset ≤ time
      · rw [if_pos hts] at h
        exact absurd h (by simp)
      · rw [if_neg hts] at h
        by_cases hover : (byteAt data (offset + 10) ≠ o2p ∨ byteAt data (offset + 11) ≠ hep) ∧
            (byteAt data (offset + 10), byteAt data (offset + 11)) ∉ mixes ∧
            idive_NGASMIXES ≤ mixes.length
        · rw [if_pos hover] at h
          exact absurd h (by simp)
        · rw [if_neg hover] at h
          simp only [] at h
          split at h
          · exact absurd h (by simp)
          · rename_i rest t2 md2 ms2 heq
            simp only [Except.ok.injEq, Prod.mk.injEq] at h
            obtain ⟨hsamp, ht, hmd, hms⟩ := h
            subst ht
            rw [← hsamp]
            have hrec := ih _ _ _ _ _ _ rest t2 md2 ms2 heq
            by_cases hc1 : (byteAt data (offset + 10) ≠ o2p ∨ byteAt data (offset + 11) ≠ hep) <;>
              by_cases hc2 : array_uint16_le data (offset + 23) ≠ 65535 <;>
              by_cases hc3 : array_uint16_le data (offset + 21) ≠ 0 <;>
              [skip; skip; skip; skip; skip; skip; skip; skip] <;>
              simp [hc1, hc2, hc3, timeFold, List.foldl_append] <;>
              rw [hrec (idive_ts data offset)] <;>
              rcases hre : rest with _ | ⟨x, xs⟩ <;>
              simp only [List.isEmpty_nil, List.isEmpty_cons, if_true, if_false] <;>
              first
                | rfl
                | (exact (idive_loop_ok_nil data size fuel (offset + idive_SZ_SAMPLE)
                    (idive_ts data offset) _ _ _ _ t2 md2 ms2 (hre ▸ heq)).symm)
    · rw [if_neg h1] at h
      simp only [Except.ok.injEq, Prod.mk.injEq] at h
      obtain ⟨hsamp, ht, hmd, hms⟩ := h
      rw [← hsamp, ← ht]
      rfl

/-! ## Claim theorems -/

/-- C9: on the 82-byte Cressi Leonardo header of spec scenario 1 (bytes
0x003C at offset 6, 0x28 at 0x19, 0x0064 at 0x20, 0x14 at 0x22 and
0x18 0x03 0x0F 0x0A 0x1E at 8..12), get_field returns a divetime of
1200 seconds, a maximum depth of 10 m, the gas mix
(O2 = 0.40, He = 0, N2 = 0.60) and a minimum temperature of 20 degrees,
and get_datetime returns 2024-03-15 10:30:00. -/
theorem cressi_leonardo_scenario_fields :
    cressi_leonardo_parser_get_field cressi_scenario_header .divetime =
      .ok (.uint 1200) ∧
    cressi_leonardo_parser_get_field cressi_scenario_header .maxdepth =
      .ok (.real 10) ∧
    cressi_leonardo_parser_get_field cressi_scenario_header .gasmix =
      .ok (.mix ⟨2/5, 0, 3/5⟩) ∧
    cressi_leonardo_parser_get_field cressi_scenario_header
      .temperature_minimum = .ok (.real 20) ∧
    cressi_leonardo_parser_get_datetime cressi_scenario_header =
      .ok ⟨2024, 3, 15, 10, 30, 0⟩ := by
  refine ⟨?_, ?_, ?_, ?_, ?_⟩ <;> with_unfolding_all rfl

/-- C6: a DiveSystem iDive input whose two samples carry the absolute
timestamps 10 then 9 seconds (all other bytes valid) makes
samples_foreach return the data-format error, emit nothing and leave
the cache untouched. -/
theorem divesystem_idive_backwards_timestamp_dataformat :
    divesystem_idive_parser_samples_foreach idive_backwards_data
      ⟨false, 0, 0, []⟩ = (.dataformat, [], ⟨false, 0, 0, []⟩) := by decide

/-- C10: the iDive sample loop demands strictly increasing timestamps:
an input with two consecutive equal timestamps, or whose first sample
has timestamp 0, makes samples_foreach return the data-format error
with the field cache left exactly as it was. -/
theorem divesystem_idive_strict_monotonicity (data : List Nat) (cache : IdiveCache)
    (h : (∃ k, idive_SZ_HEADER + idive_SZ_SAMPLE * (k + 1) + idive_SZ_SAMPLE ≤ data.length ∧
            idive_ts data (idive_SZ_HEADER + idive_SZ_SAMPLE * k) =
              idive_ts data (idive_SZ_HEADER + idive_SZ_SAMPLE * (k + 1))) ∨
         (idive_SZ_HEADER + idive_SZ_SAMPLE ≤ data.length ∧
            idive_ts data idive_SZ_HEADER = 0)) :
    divesystem_idive_parser_samples_foreach data cache = (.dataformat, [], cache) := by
  unfold divesystem_idive_parser_samples_foreach
  cases hL : divesystem_idive_samples_loop data data.length idive_SZ_HEADER 0 0 []
      4294967295 4294967295 (data.length + 1) with
  | error e =>
    have he := idive_loop_error_dataformat data data.length _ _ _ _ _ _ _ e hL
    subst he
    rfl
  | ok r =>
    exfalso
    rcases h with ⟨k, hk, heqts⟩ | ⟨hsz, hz⟩
    · have := idive_loop_ok_consecutive data data.length k idive_SZ_HEADER 0 0 []
        4294967295 4294967295 (data.length + 1) ⟨r, hL⟩ hk
      omega
    · have := idive_loop_ok_lt data data.length 0 idive_SZ_HEADER 0 0 []
        4294967295 4294967295 (data.length + 1) ⟨r, hL⟩ (by simpa using hsz)
      rw [Nat.mul_zero, Nat.add_zero] at this
      omega

/-- Witness for C10 at a concrete input whose two samples carry the
equal timestamps 10 and 10. -/
theorem divesystem_idive_strict_monotonicity_witness :
    divesystem_idive_parser_samples_foreach idive_equal_ts_data ⟨false, 0, 0, []⟩ =
      (.dataformat, [], ⟨false, 0, 0, []⟩) :=
  divesystem_idive_strict_monotonicity idive_equal_ts_data ⟨false, 0, 0, []⟩
    (Or.inl ⟨0, by decide, by decide⟩)

/-- C5 counterexample: for the Cressi Leonardo parser, on a header whose
stored divetime field is 0x003C followed by a single 2-byte sample, both
get_field(DIVETIME) and samples_foreach succeed, yet the final TIME
value emitted (20 s) differs from the returned divetime (1200 s). -/
theorem cressi_divetime_differs_from_final_time :
    cressi_leonardo_parser_get_field cressi_one_sample_data .divetime =
      .ok (.uint 1200) ∧
    cressi_leonardo_parser_samples_foreach cressi_one_sample_data =
      (.success, [.time 20, .depth (1/2)]) ∧
    lastTimeValue [.time 20, .depth (1/2)] 0 ≠ 1200 := by
  refine ⟨by with_unfolding_all rfl, by with_unfolding_all rfl, by decide⟩

/-- C5 amended: for the DiveSystem iDive parser, whose divetime is
derived from the sample stream, a successful samples_foreach with at
least one emitted sample makes the subsequent get_field(DIVETIME)
return exactly the value of the last emitted TIME sample. -/
theorem divesystem_idive_divetime_eq_last_emitted_time
    (data : List Nat) (cache : IdiveCache) (samples : List DcSample) (c' : IdiveCache)
    (h : divesystem_idive_parser_samples_foreach data cache = (.success, samples, c'))
    (hne : samples ≠ [])
    (hsz : idive_SZ_HEADER ≤ data.length) :
    divesystem_idive_parser_get_field data c' .divetime 0 =
      .ok (.uint (lastTimeValue samples 0), c') := by
  unfold divesystem_idive_parser_samples_foreach at h
  cases hL : divesystem_idive_samples_loop data data.length idive_SZ_HEADER 0 0 []
      4294967295 4294967295 (data.length + 1) with
  | error e =>
    rw [hL] at h
    simp only [Prod.mk.injEq] at h
    exact absurd h.2.1.symm hne
  | ok r =>
    rw [hL] at h
    obtain ⟨s, t, md, ms⟩ := r
    simp only [Prod.mk.injEq] at h
    obtain ⟨-, hs, hc⟩ := h
    subst hs
    have hfold := idive_loop_ok_lastTime data data.length (data.length + 1)
      idive_SZ_HEADER 0 0 [] 4294967295 4294967295 s t md ms hL 0
    have hlast : lastTimeValue s 0 = t := by
      unfold lastTimeValue
      rw [hfold]
      simp [List.isEmpty_iff, hne]
    unfold divesystem_idive_parser_get_field
    rw [if_neg (by omega)]
    rw [hlast, ← hc]
    rfl

/-- Witness for the amended C5 at a concrete one-sample iDive input. -/
theorem divesystem_idive_divetime_eq_last_emitted_time_witness :
    divesystem_idive_parser_get_field idive_single_data ⟨true, 10, 0, [(0, 0)]⟩ .divetime 0 =
      .ok (.uint (lastTimeValue idive_single_samples 0), ⟨true, 10, 0, [(0, 0)]⟩) :=
  divesystem_idive_divetime_eq_last_emitted_time idive_single_data ⟨false, 0, 0, []⟩
    idive_single_samples ⟨true, 10, 0, [(0, 0)]⟩ (by with_unfolding_all rfl)
    (by simp [idive_single_samples]) (by decide)

/-- C1 counterexample: on a Shearwater Petrel record with the imperial
units byte set and big-endian sample depth field 100, the emitted DEPTH
sample is 100 times FEET divided by 10 (the field is stored in tenths
of a foot), which differs from the 100 times FEET the claim asserts. -/
theorem shearwater_petrel_imperial_depth_counterexample :
    (shearwater_predator_parser_samples_foreach shearwater_imperial_data true).2 =
      [.time 10, .depth ((100 : ℚ) * FEET / 10),
        .temperature (((0 : ℚ) - 32) * (5 / 9)), .ppo2 0, .cns 0,
        .deco DC_DECO_NDL 0 0] ∧
    ((100 : ℚ) * FEET / 10) ≠ (100 : ℚ) * FEET := by
  refine ⟨by with_unfolding_all rfl, by norm_num [FEET]⟩

/-- C1 amended: on the same record the parse succeeds and the emitted
DEPTH sample equals 100 times 0.3048 divided by 10, that is 3.048
meters. -/
theorem shearwater_petrel_imperial_depth_tenths_of_feet :
    shearwater_predator_parser_samples_foreach shearwater_imperial_data true =
      (.success, [.time 10, .depth ((100 : ℚ) * FEET / 10),
        .temperature (((0 : ℚ) - 32) * (5 / 9)), .ppo2 0, .cns 0,
        .deco DC_DECO_NDL 0 0]) ∧
    ((100 : ℚ) * FEET / 10) = 3048 / 1000 := by
  refine ⟨by with_unfolding_all rfl, by norm_num [FEET]⟩

/-- C2 counterexample: the Uwatec Smart parser also halves the clock
delta: with devtime 100, systime 1000 and a record whose stored
timestamp is 0, the computed ticks value is 950 and not the
1000 - (100 - 0) = 900 the claim asserts. -/
theorem uwatec_smart_halves_clock_delta :
    uwatec_smart_parser_get_datetime_ticks 0x10 100 1000 zero_header_92 =
      .ok 950 ∧
    (950 : Int) ≠ 1000 - (100 - 0) := by
  refine ⟨by with_unfolding_all rfl, by decide⟩

/-- C2 amended: the clock pair conversion computes
systime - (devtime - t) with the delta halved for both Uwatec families
(Smart and Memomouse, whose device clocks tick twice per second) and
unhalved for the Reefnet Sensus Pro and Ultra parsers. -/
theorem clock_skew_delta_conversion :
    (∀ (devtime : Nat) (systime : Int) (data : List Nat) (t : Nat),
      92 ≤ data.length → array_uint32_le data 8 = t →
      uwatec_smart_parser_get_datetime_ticks 0x10 devtime systime data =
        .ok (systime - (usub32 devtime t / 2 : Nat))) ∧
    (∀ (devtime : Nat) (systime : Int) (data : List Nat) (t : Nat),
      15 ≤ data.length → array_uint32_le data 11 = t →
      uwatec_memomouse_parser_get_datetime_ticks devtime systime data =
        .ok (systime - (usub32 devtime t / 2 : Nat))) ∧
    (∀ (devtime : Nat) (systime : Int) (data : List Nat) (t : Nat),
      10 ≤ data.length → array_uint32_le data 6 = t →
      reefnet_sensuspro_parser_get_datetime_ticks devtime systime data =
        .ok (systime - (usub32 devtime t : Nat))) ∧
    (∀ (devtime : Nat) (systime : Int) (data : List Nat) (t : Nat),
      8 ≤ data.length → array_uint32_le data 4 = t →
      reefnet_sensusultra_parser_get_datetime_ticks devtime systime data =
        .ok (systime - (usub32 devtime t : Nat))) := by
  refine ⟨?_, ?_, ?_, ?_⟩
  · intro devtime systime data t hlen ht
    show (if data.length < 92 then (.error .dataformat : Except DcStatus Int)
      else .ok (systime - (usub32 devtime (array_uint32_le data 8) / 2 : Nat))) = _
    rw [if_neg (by omega), ht]
  · intro devtime systime data t hlen ht
    unfold uwatec_memomouse_parser_get_datetime_ticks
    rw [if_neg (by omega), ht]
  · intro devtime systime data t hlen ht
    unfold reefnet_sensuspro_parser_get_datetime_ticks
    rw [if_neg (by omega), ht]
  · intro devtime systime data t hlen ht
    unfold reefnet_sensusultra_parser_get_datetime_ticks
    rw [if_neg (by omega), ht]

/-- Witness for the amended C2 at devtime 100, systime 1000 and records
whose stored timestamp is 0. -/
theorem clock_skew_delta_conversion_witness :
    uwatec_smart_parser_get_datetime_ticks 0x10 100 1000 zero_header_92 =
      .ok (1000 - (usub32 100 0 / 2 : Nat)) ∧
    uwatec_memomouse_parser_get_datetime_ticks 100 1000 zero_header_92 =
      .ok (1000 - (usub32 100 0 / 2 : Nat)) ∧
    reefnet_sensuspro_parser_get_datetime_ticks 100 1000 zero_header_92 =
      .ok (1000 - (usub32 100 0 : Nat)) ∧
    reefnet_sensusultra_parser_get_datetime_ticks 100 1000 zero_header_92 =
      .ok (1000 - (usub32 100 0 : Nat)) :=
  ⟨clock_skew_delta_conversion.1 100 1000 zero_header_92 0 (by decide) (by decide),
   clock_skew_delta_conversion.2.1 100 1000 zero_header_92 0 (by decide) (by decide),
   clock_skew_delta_conversion.2.2.1 100 1000 zero_header_92 0 (by decide) (by decide),
   clock_skew_delta_conversion.2.2.2 100 1000 zero_header_92 0 (by decide) (by decide)⟩

/-- C4 counterexample: the Cressi Leonardo samples_foreach has no
minimum-size guard: on a 10-byte blob (smaller than the 82-byte header)
it succeeds with an empty sample stream instead of returning the
data-format error. -/
theorem cressi_samples_foreach_no_size_guard :
    cressi_leonardo_parser_samples_foreach undersized_blob = (.success, []) ∧
    DcStatus.success ≠ DcStatus.dataformat := by
  refine ⟨by decide, by decide⟩

/-- C4 amended: get_datetime and get_field guard their family minimum
record sizes and fail undersized input with the data-format error, but
samples_foreach of the cited families (Cressi Leonardo, DiveSystem
iDive, Reefnet Sensus Pro) performs no such guard and succeeds with an
empty sample stream on undersized input. -/
theorem undersized_guard_behavior :
    (∀ data : List Nat, data.length < cressi_SZ_HEADER →
      cressi_leonardo_parser_get_datetime data = .error .dataformat ∧
      (∀ ftype, cressi_leonardo_parser_get_field data ftype = .error .dataformat) ∧
      cressi_leonardo_parser_samples_foreach data = (.success, [])) ∧
    (∀ (data : List Nat) (cache : IdiveCache), data.length < idive_SZ_HEADER →
      divesystem_idive_parser_get_datetime_ticks data = .error .dataformat ∧
      (∀ ftype flags, divesystem_idive_parser_get_field data cache ftype flags =
        .error .dataformat) ∧
      divesystem_idive_parser_samples_foreach data cache =
        (.success, [], ⟨true, 0, 0, []⟩)) ∧
    (∀ (data : List Nat) (devtime : Nat) (systime : Int)
        (cache : SensusProCache) (atm hyd : ℚ),
      (data.length < 10 →
        reefnet_sensuspro_parser_get_datetime_ticks devtime systime data =
          .error .dataformat) ∧
      (data.length < 12 →
        ∀ ftype, reefnet_sensuspro_parser_get_field data cache atm hyd ftype =
          .error .dataformat) ∧
      (data.length < 4 →
        reefnet_sensuspro_parser_samples_foreach data atm hyd = (.success, []))) := by
  refine ⟨?_, ?_, ?_⟩
  · intro data hlen
    refine ⟨?_, ?_, ?_⟩
    · unfold cressi_leonardo_parser_get_datetime
      rw [if_pos hlen]
    · intro ftype
      unfold cressi_leonardo_parser_get_field
      rw [if_pos hlen]
    · unfold cressi_leonardo_parser_samples_foreach
      rw [cressi_leonardo_samples_loop]
      rw [if_neg (by have h82 : cressi_SZ_HEADER = 82 := rfl; omega)]
  · intro data cache hlen
    refine ⟨?_, ?_, ?_⟩
    · unfold divesystem_idive_parser_get_datetime_ticks
      rw [if_pos hlen]
    · intro ftype flags
      unfold divesystem_idive_parser_get_field
      rw [if_pos hlen]
    · unfold divesystem_idive_parser_samples_foreach
      rw [divesystem_idive_samples_loop]
      rw [if_neg (by
        have h50 : idive_SZ_HEADER = 50 := rfl
        have h42 : idive_SZ_SAMPLE = 42 := rfl
        omega)]
  · intro data devtime systime cache atm hyd
    refine ⟨?_, ?_, ?_⟩
    · intro hlen
      unfold reefnet_sensuspro_parser_get_datetime_ticks
      rw [if_pos (by omega)]
    · intro hlen ftype
      unfold reefnet_sensuspro_parser_get_field
      rw [if_pos hlen]
    · intro hlen
      unfold reefnet_sensuspro_parser_samples_foreach
      rw [reefnet_sensuspro_scan_loop]
      rw [if_neg (by omega)]

/-- Witness for the amended C4 at a concrete 10-byte blob. -/
theorem undersized_guard_behavior_witness :
    cressi_leonardo_parser_get_datetime undersized_blob = .error .dataformat ∧
    cressi_leonardo_parser_get_field undersized_blob .divetime = .error .dataformat ∧
    divesystem_idive_parser_get_field undersized_blob ⟨false, 0, 0, []⟩ .divetime 0 =
      .error .dataformat ∧
    reefnet_sensuspro_parser_get_datetime_ticks 0 0 ([] : List Nat) = .error .dataformat ∧
    reefnet_sensuspro_parser_samples_foreach ([] : List Nat) 0 0 = (.success, []) :=
  ⟨(undersized_guard_behavior.1 undersized_blob (by decide)).1,
   (undersized_guard_behavior.1 undersized_blob (by decide)).2.1 .divetime,
   ((undersized_guard_behavior.2.1 undersized_blob ⟨false, 0, 0, []⟩ (by decide)).2.1 .divetime 0),
   (undersized_guard_behavior.2.2 [] 0 0 ⟨false, 0, 0⟩ 0 0).1 (by decide),
   (undersized_guard_behavior.2.2 [] 0 0 ⟨false, 0, 0⟩ 0 0).2.2 (by decide)⟩

/-- C8: for the Oceanic Atom2 parser at a 30-second interval, a 0xBB
surface-interval sample encoding 1 minute 30 seconds (90 s of surface
time) inserts exactly three synthetic zero-depth samples at the times
+30, +60 and +90 seconds. -/
theorem oceanic_atom2_surface_interval :
    oceanic_atom2_parser_samples_foreach oceanic_bb_data ATOM2 =
      (.success, [.time 30, .vendor SAMPLE_VENDOR_OCEANIC_ATOM2 16, .depth 0,
        .time 60, .depth 0, .time 90, .depth 0]) := by
  with_unfolding_all rfl

/-- C3 counterexample: in the abort scenario the newest dive stores a
next pointer (30) equal to neither the previous pointer (50) nor its own
start (40); the enumeration aborts immediately with the data-format
error and delivers no dive at all, although the remaining dive at 30
(which the claim says would still be enumerated) is well formed. -/
theorem suunto_discontinuous_dive_aborts :
    suunto_common2_device_foreach suunto_memA suunto_test_layout [9] 40 2 50 30 =
      (.dataformat, []) ∧
    ((.dataformat, []) : DcStatus × List (Nat × Nat)) ≠ (.dataformat, [(30, 10)]) := by
  refine ⟨by decide, by decide⟩

/-- C3 amended: only an incomplete dive, whose stored next pointer
equals its own start address, is skipped: the traversal then continues
with the remaining dives and a delayed data-format status, which is
returned once the remaining byte count reaches zero.  A dive whose next
pointer equals neither the previous dive pointer nor its own start
aborts the enumeration immediately (see the counterexample). -/
theorem suunto_incomplete_dive_skipped
    (mem : Nat → Nat) (l : SuuntoLayout) (fp : List Nat)
    (remaining current previous : Nat) (delayed : DcStatus)
    (delivered : List (Nat × Nat)) (fuel : Nat) :
    (remaining ≠ 0 →
      ¬(ringbuffer_distance current previous true l.rb_profile_begin
          l.rb_profile_end < 4 ∨
        remaining < ringbuffer_distance current previous true
          l.rb_profile_begin l.rb_profile_end) →
      ¬(ringRead16 mem l current 0 < l.rb_profile_begin ∨
        l.rb_profile_end ≤ ringRead16 mem l current 0 ∨
        ringRead16 mem l current 2 < l.rb_profile_begin ∨
        l.rb_profile_end ≤ ringRead16 mem l current 2) →
      ringRead16 mem l current 2 = current →
      suunto_common2_foreach_loop mem l fp remaining current previous delayed
        delivered (fuel + 1) =
        suunto_common2_foreach_loop mem l fp
          (remaining - ringbuffer_distance current previous true
            l.rb_profile_begin l.rb_profile_end)
          (ringRead16 mem l current 0) current .dataformat delivered fuel) ∧
    suunto_common2_foreach_loop mem l fp 0 current previous delayed delivered
      fuel = (delayed, delivered) := by
  constructor
  · intro h1 h2 h3 h4
    rw [suunto_common2_foreach_loop]
    rw [if_pos h1, if_neg h2, if_neg h3]
    rw [if_neg (by simp [h4])]
    rw [if_neg (by simp [h4])]
  · cases fuel with
    | zero => rfl
    | succ f =>
      rw [suunto_common2_foreach_loop]
      simp

/-- Witness for the amended C3 in the skip scenario: the incomplete
newest dive (next pointing at its own start 40) is skipped with a
delayed data-format status and the traversal continues at the previous
dive. -/
theorem suunto_incomplete_dive_skipped_witness :
    suunto_common2_foreach_loop suunto_memB suunto_test_layout [9] 20 40 50
      .success [] (20 + 1) =
      suunto_common2_foreach_loop suunto_memB suunto_test_layout [9]
        (20 - ringbuffer_distance 40 50 true suunto_test_layout.rb_profile_begin
          suunto_test_layout.rb_profile_end)
        (ringRead16 suunto_memB suunto_test_layout 40 0) 40 .dataformat [] 20 ∧
    suunto_common2_foreach_loop suunto_memB suunto_test_layout [9] 0 40 50
      .success [] 20 = (.success, []) :=
  ⟨(suunto_incomplete_dive_skipped suunto_memB suunto_test_layout [9] 20 40 50
      .success [] 20).1 (by decide) (by decide) (by decide) (by decide),
   (suunto_incomplete_dive_skipped suunto_memB suunto_test_layout [9] 20 40 50
      .success [] 20).2⟩

theorem uwatec_smart_identify_bits_step (b count rem : Nat) :
    uwatec_smart_identify_bits b count (rem + 1) =
      if b &&& (1 <<< rem) = 0 then some count
      else uwatec_smart_identify_bits b (count + 1) rem := rfl

theorem uwatec_smart_identify_bits_shift (b : Nat) :
    ∀ (rem count : Nat),
      uwatec_smart_identify_bits b count rem =
        (uwatec_smart_identify_bits b 0 rem).map (count + ·) := by
  intro rem
  induction rem with
  | zero => intro count; rfl
  | succ rem ih =>
    intro count
    rw [uwatec_smart_identify_bits_step, uwatec_smart_identify_bits_step]
    by_cases hbit : b &&& (1 <<< rem) = 0
    · rw [if_pos hbit, if_pos hbit]
      rfl
    · rw [if_neg hbit, if_neg hbit]
      rw [ih (count + 1), ih 1, Option.map_map]
      congr 1
      funext v
      simp [Function.comp]
      omega

theorem leadingOnes_all (l : List Bool) (h : l.all id = true) :
    leadingOnes l = l.length := by
  induction l with
  | nil => rfl
  | cons x xs ih =>
    simp only [List.all_cons, Bool.and_eq_true, id] at h
    obtain ⟨hx, hxs⟩ := h
    subst hx
    simp only [leadingOnes, List.takeWhile_cons, id, if_true, List.length_cons]
    simpa [leadingOnes] using ih hxs

theorem leadingOnes_cons_true (l : List Bool) :
    leadingOnes (true :: l) = leadingOnes l + 1 := by
  simp [leadingOnes, List.takeWhile_cons]

theorem leadingOnes_cons_false (l : List Bool) :
    leadingOnes (false :: l) = 0 := by
  simp [leadingOnes, List.takeWhile_cons]

theorem leadingOnes_append (l1 l2 : List Bool) :
    leadingOnes (l1 ++ l2) =
      if l1.all id = true then l1.length + leadingOnes l2
      else leadingOnes l1 := by
  induction l1 with
  | nil => simp [leadingOnes]
  | cons x xs ih =>
    cases x with
    | true =>
      simp only [List.cons_append, leadingOnes_cons_true, ih, List.all_cons,
        id_eq, Bool.true_and, List.length_cons]
      by_cases hxs : xs.all id = true
      · rw [if_pos hxs, if_pos hxs]
        omega
      · rw [if_neg hxs, if_neg hxs]
    | false =>
      simp only [List.cons_append, leadingOnes_cons_false, List.all_cons,
        id_eq, Bool.false_and]
      simp

theorem byteBitsMSB_length (b : Nat) : (byteBitsMSB b).length = 8 := by
  simp [byteBitsMSB]

theorem uwatec_smart_identify_bits_spec : ∀ (rem b : Nat),
    (uwatec_smart_identify_bits b 0 rem = some (leadingOnes (bitsFrom b rem)) ∧
      ¬ (bitsFrom b rem).all id = true) ∨
    (uwatec_smart_identify_bits b 0 rem = none ∧
      (bitsFrom b rem).all id = true) := by
  intro rem
  induction rem with
  | zero => intro b; right; exact ⟨rfl, rfl⟩
  | succ rem ih =>
    intro b
    have hcons : bitsFrom b (rem + 1) =
        decide (b &&& (1 <<< rem) ≠ 0) :: bitsFrom b rem := rfl
    by_cases hbit : b &&& (1 <<< rem) = 0
    · left
      have hhead : decide (b &&& (1 <<< rem) ≠ 0) = false := by simp [hbit]
      rw [uwatec_smart_identify_bits_step, if_pos hbit, hcons, hhead]
      exact ⟨by rw [leadingOnes_cons_false], by simp⟩
    · have hhead : decide (b &&& (1 <<< rem) ≠ 0) = true := by simp [hbit]
      rw [uwatec_smart_identify_bits_step, if_neg hbit,
        uwatec_smart_identify_bits_shift, hcons, hhead]
      rcases ih b with ⟨hsome, hnall⟩ | ⟨hnone, hall⟩
      · left
        rw [hsome]
        exact ⟨by simp [Option.map_some', leadingOnes_cons_true, Nat.add_comm],
          by simpa using hnall⟩
      · right
        rw [hnone]
        exact ⟨rfl, by simpa using hall⟩

theorem uwatec_byte_cases : ∀ b < 256,
    (uwatec_smart_identify_bits b 0 8 = some (leadingOnes (byteBitsMSB b)) ∧
      ¬ (byteBitsMSB b).all id = true) ∨
    (uwatec_smart_identify_bits b 0 8 = none ∧
      (byteBitsMSB b).all id = true) := by
  intro b _
  have h8 : byteBitsMSB b = bitsFrom b 8 := rfl
  rw [h8]
  exact uwatec_smart_identify_bits_spec 8 b

theorem uwatec_smart_identify_loop_eq :
    ∀ data : List Nat, (∀ b ∈ data, b < 256) → false ∈ bitstream data →
      ∀ c, uwatec_smart_identify_loop data c = c + leadingOnes (bitstream data) := by
  intro data
  induction data with
  | nil =>
    intro _ hf
    simp [bitstream] at hf
  | cons b rest ih =>
    intro hb hf c
    have hbs : bitstream (b :: rest) = byteBitsMSB b ++ bitstream rest := by
      simp [bitstream]
    rcases uwatec_byte_cases b (hb b (by simp)) with ⟨hsome, hnall⟩ | ⟨hnone, hall⟩
    · rw [uwatec_smart_identify_loop, uwatec_smart_identify_bits_shift b 8 c, hsome]
      simp only [Option.map_some']
      rw [hbs, leadingOnes_append, if_neg hnall]
    · rw [uwatec_smart_identify_loop, uwatec_smart_identify_bits_shift b 8 c, hnone]
      simp only [Option.map_none']
      have hf' : false ∈ bitstream rest := by
        rw [hbs] at hf
        rcases List.mem_append.mp hf with h | h
        · exact absurd (List.all_eq_true.mp hall false h) (by simp)
        · exact h
      rw [ih (fun x hx => hb x (by simp [hx])) hf' (c + 8)]
      rw [hbs, leadingOnes_append, if_pos hall, byteBitsMSB_length]
      omega

/-- C7: the Uwatec Smart sample type index is the count of leading one
bits of the input bytes, continuing into further bytes when all eight
bits are one: a first byte 0xxxxxxx selects type 0 (a DEPTH delta in
the Aladin table), a first byte 10xxxxxx selects type 1 (a TEMPERATURE
delta), and the byte pair 0xFF 0x7F selects type 8 (ALARMS with
subindex 1). -/
theorem uwatec_smart_leading_ones_identification :
    (∀ (b : Nat) (rest : List Nat), b &&& 0x80 = 0 →
      uwatec_smart_identify (b :: rest) = 0) ∧
    (∀ (b : Nat) (rest : List Nat), b &&& 0xC0 = 0x80 →
      uwatec_smart_identify (b :: rest) = 1) ∧
    (uwatec_smart_identify [0xFF, 0x7F] = 8 ∧
      (uwatec_smart_aladin_samples.getD 0 ⟨.depth, 0, 0, 0, 0, 0⟩).stype = .depth ∧
      (uwatec_smart_aladin_samples.getD 0 ⟨.depth, 0, 0, 0, 0, 0⟩).absolute = 0 ∧
      (uwatec_smart_aladin_samples.getD 1 ⟨.depth, 0, 0, 0, 0, 0⟩).stype = .temperature ∧
      (uwatec_smart_aladin_samples.getD 1 ⟨.depth, 0, 0, 0, 0, 0⟩).absolute = 0 ∧
      (uwatec_smart_aladin_samples.getD 8 ⟨.depth, 0, 0, 0, 0, 0⟩).stype = .alarms ∧
      (uwatec_smart_aladin_samples.getD 8 ⟨.depth, 0, 0, 0, 0, 0⟩).index = 1) ∧
    (∀ data : List Nat, (∀ b ∈ data, b < 256) → false ∈ bitstream data →
      uwatec_smart_identify data = leadingOnes (bitstream data)) := by
  refine ⟨?_, ?_, by decide, ?_⟩
  · intro b rest hb
    have hbits : uwatec_smart_identify_bits b 0 8 = some 0 := by
      rw [show (8 : Nat) = 7 + 1 from rfl, uwatec_smart_identify_bits_step]
      rw [show (1 <<< 7 : Nat) = 0x80 from rfl, if_pos hb]
    unfold uwatec_smart_identify
    rw [uwatec_smart_identify_loop, hbits]
  · intro b rest hb
    have h1 : b &&& 128 = 128 := by
      have h := congrArg (fun x => x &&& 128) hb
      simpa [Nat.and_assoc] using h
    have h2 : b &&& 64 = 0 := by
      have h := congrArg (fun x => x &&& 64) hb
      simpa [Nat.and_assoc] using h
    have hbits : uwatec_smart_identify_bits b 0 8 = some 1 := by
      rw [show (8 : Nat) = 7 + 1 from rfl, uwatec_smart_identify_bits_step]
      rw [show (1 <<< 7 : Nat) = 128 from rfl, if_neg (by omega)]
      rw [show (7 : Nat) = 6 + 1 from rfl, uwatec_smart_identify_bits_step]
      rw [show (1 <<< 6 : Nat) = 64 from rfl, if_pos h2]
    unfold uwatec_smart_identify
    rw [uwatec_smart_identify_loop, hbits]
  · intro data hb hf
    unfold uwatec_smart_identify
    rw [uwatec_smart_identify_loop_eq data hb hf 0]
    omega

/-- Witness for C7: concrete bytes of the hypothesis-bearing parts:
0x05 has a clear top bit, 0xA0 matches 10xxxxxx, and the pair
0xFF 0x7F holds a zero bit. -/
theorem uwatec_smart_leading_ones_identification_witness :
    uwatec_smart_identify [0x05] = 0 ∧
    uwatec_smart_identify [0xA0] = 1 ∧
    uwatec_smart_identify [0xFF, 0x7F] = leadingOnes (bitstream [0xFF, 0x7F]) :=
  ⟨uwatec_smart_leading_ones_identification.1 0x05 [] (by decide),
   uwatec_smart_leading_ones_identification.2.1 0xA0 [] (by decide),
   uwatec_smart_leading_ones_identification.2.2.2 [0xFF, 0x7F] (by decide) (by decide)⟩
